import Mathlib

/-!
Shallow embedding of the order-creation core of the go-restaurant
point-of-sale backend, together with the read paths and pagination
conventions it relies on.

Conventions of the embedding:
* Go `float64` money/price fields are modelled as `Rat` (the program only
  ever adds, multiplies and compares them; binary rounding is abstracted).
* Go `int64` fields (stock, quantity) are modelled as `Int`; `uint64` ids
  as `Nat`; `uint64` arithmetic that can wrap is taken modulo `2 ^ 64`.
* Go errors are values of the inductive `GoError`; fallible calls return
  `Except GoError α`.
* The collaborating repositories and the cache are pure oracles collected
  in an `Env` structure; the service functions additionally return the
  list of side-effecting calls they issued (an `Effect` trace), so that
  persistence / cache-mutation claims are statements about the trace.
-/

namespace GoRestaurant

/-- GoError models the error values of the common domain package
(`ErrDataNotFound`, `ErrInternal`, `ErrConflictingData`, `ErrNoUpdatedData`,
`ErrInsufficientStock`, `ErrInsufficientPayment`); `other msg` stands for
any error value outside that enumeration, e.g. a raw deserialization or
driver error that the code returns unwrapped. -/
inductive GoError where
  | dataNotFound
  | internal
  | conflictingData
  | noUpdatedData
  | insufficientStock
  | insufficientPayment
  | other (msg : String)
deriving DecidableEq, Repr

/-- Decidable equality of Except values, so the embedding evaluates on
concrete inputs. -/
instance {ε α : Type} [DecidableEq ε] [DecidableEq α] :
    DecidableEq (Except ε α) := fun a b =>
  match a, b with
  | .ok x, .ok y =>
    if h : x = y then isTrue (by rw [h])
    else isFalse (fun hc => h (Except.ok.inj hc))
  | .error x, .error y =>
    if h : x = y then isTrue (by rw [h])
    else isFalse (fun hc => h (Except.error.inj hc))
  | .ok _, .error _ => isFalse (fun hc => Except.noConfusion hc)
  | .error _, .ok _ => isFalse (fun hc => Except.noConfusion hc)

/-- Category models `category/domain.Category` (descriptive fields beyond
the id and name are irrelevant to the order core and omitted). -/
structure Category where
  ID : Nat
  Name : String
deriving DecidableEq, Repr

/-- Product models `product/domain.Product`: `Stock` is Go `int64`,
`Price` is Go `float64` (here `Rat`), `SKU` a UUID rendered as a string,
timestamps as integers. -/
structure Product where
  ID : Nat
  CategoryID : Nat
  SKU : String
  Name : String
  Stock : Int
  Price : Rat
  Image : String
  CreatedAt : Int
  UpdatedAt : Int
  Category : Option Category
deriving DecidableEq, Repr

/-- User models `user/domain.User` (only the fields the order core reads). -/
structure User where
  ID : Nat
  Name : String
  Email : String
  Role : String
deriving DecidableEq, Repr

/-- Payment models `payment/domain.Payment` (only the fields the order
core reads; the Go field `Type` is spelled `PayType` because `Type` is a
Lean keyword). -/
structure Payment where
  ID : Nat
  Name : String
  PayType : String
deriving DecidableEq, Repr

/-- OrderProduct models `orderproduct/domain.OrderProduct`: a line of an
order with requested `Quantity` (Go `int64`) and the computed line total
`TotalPrice` (Go `float64`). -/
structure OrderProduct where
  ID : Nat
  OrderID : Nat
  ProductID : Nat
  Quantity : Int
  TotalPrice : Rat
  Product : Option Product
  CreatedAt : Int
  UpdatedAt : Int
deriving DecidableEq, Repr

/-- Order models `order/domain.Order`: monetary fields are Go `float64`
(here `Rat`), `ReceiptCode` a UUID rendered as a string. -/
structure Order where
  ID : Nat
  UserID : Nat
  PaymentID : Nat
  CustomerName : String
  TotalPrice : Rat
  TotalPaid : Rat
  TotalReturn : Rat
  ReceiptCode : String
  CreatedAt : Int
  UpdatedAt : Int
  User : Option User
  Payment : Option Payment
  Products : List OrderProduct
deriving DecidableEq, Repr

/-- Effect records one side-effecting collaborator call issued by the
order service: repository reads, the order persist call, and cache
mutations.  The product-write constructors are the mutating operations of
`port.ProductRepository` (`CreateProduct`, `UpdateProduct`,
`DeleteProduct`); they are in the vocabulary so that frame claims about
`CreateOrder` never issuing them are meaningful. -/
inductive Effect where
  | getProduct (id : Nat)
  | getCategory (id : Nat)
  | getUser (id : Nat)
  | getPayment (id : Nat)
  | persistOrder (o : Order)
  | cacheDeleteByPat (pat : String)
  | cacheSet (key : String) (value : String) (ttl : Nat)
  | createProduct (p : Product)
  | updateProduct (p : Product)
  | deleteProduct (id : Nat)
deriving DecidableEq, Repr

/-- Effect.writesProduct is true exactly on the product-mutating
repository operations. -/
def Effect.writesProduct : Effect → Bool
  | .createProduct _ => true
  | .updateProduct _ => true
  | .deleteProduct _ => true
  | _ => false

/-- Env packages the collaborators the order service consumes, as pure
fallible oracles: the five repositories, the cache accessor, and the
(de)serialization helpers.  `Serialize`/`Deserialize` live in the common
util package of the repository; they are modelled as oracles because any
of them may fail with an arbitrary error value. -/
structure Env where
  getProductByID : Nat → Except GoError Product
  getCategoryByID : Nat → Except GoError Category
  getUserByID : Nat → Except GoError User
  getPaymentByID : Nat → Except GoError Payment
  createOrder : Order → Except GoError Order
  getOrderByID : Nat → Except GoError Order
  cacheGet : String → Except GoError String
  cacheSet : String → String → Nat → Except GoError Unit
  cacheDeleteByPat : String → Except GoError Unit
  serializeOrder : Order → Except GoError String
  deserializeOrder : String → Except GoError Order
  serializeCategory : Category → Except GoError String
  deserializeCategory : String → Except GoError Category

/-- GenerateCacheKey. Modelled from the spec: the implementation of
`cmutil.GenerateCacheKey` is not among the provided sources; the spec
describes single-entity keys as a deterministic function of
(entity-kind-tag, id), conceptually `"order:42"`. -/
def generateCacheKey (tag : String) (params : String) : String :=
  tag ++ ":" ++ params

/-- createLoop embeds the first loop of `OrderService.CreateOrder`
(order/service lines 46-58): for each requested line fetch the product,
propagate a fetch error unchanged, fail with `insufficientStock` when
`product.Stock < orderProduct.Quantity`, otherwise set the line total to
`product.Price * float64(orderProduct.Quantity)` and accumulate it into
the running total.  Returns the rewritten lines and the total, plus the
trace of product fetches issued. -/
def createLoop (env : Env) :
    List OrderProduct → Except GoError (List OrderProduct × Rat) × List Effect
  | [] => (.ok ([], 0), [])
  | op :: rest =>
    match env.getProductByID op.ProductID with
    | .error e => (.error e, [.getProduct op.ProductID])
    | .ok product =>
      if product.Stock < op.Quantity then
        (.error .insufficientStock, [.getProduct op.ProductID])
      else
        let op' := { op with TotalPrice := product.Price * (op.Quantity : Rat) }
        let r := createLoop env rest
        (match r.1 with
         | .error e => .error e
         | .ok (ops, tp) =>
             .ok (op' :: ops, product.Price * (op.Quantity : Rat) + tp),
         .getProduct op.ProductID :: r.2)

/-- enrichLoop embeds the post-persistence enrichment loop of
`OrderService.CreateOrder` (lines 85-98), shared verbatim by
`GetOrder`: for each line re-fetch the product and its category and attach
them to the line. -/
def enrichLoop (env : Env) :
    List OrderProduct → Except GoError (List OrderProduct) × List Effect
  | [] => (.ok [], [])
  | op :: rest =>
    match env.getProductByID op.ProductID with
    | .error e => (.error e, [.getProduct op.ProductID])
    | .ok product =>
      match env.getCategoryByID product.CategoryID with
      | .error e =>
          (.error e, [.getProduct op.ProductID, .getCategory product.CategoryID])
      | .ok category =>
        let op' := { op with
          Product := some { product with Category := some category } }
        let r := enrichLoop env rest
        (match r.1 with
         | .error e => .error e
         | .ok ops => .ok (op' :: ops),
         .getProduct op.ProductID :: .getCategory product.CategoryID :: r.2)

/-- buildPersistOrder is the order value `CreateOrder` hands to the order
repository after validation (lines 56-65): the rewritten lines, the
server-computed `TotalPrice`, and `TotalReturn = TotalPaid - TotalPrice`.
The draft's own `TotalPrice` field is overwritten. -/
def buildPersistOrder (order : Order) (ops : List OrderProduct) (tp : Rat) :
    Order :=
  { order with Products := ops, TotalPrice := tp,
               TotalReturn := order.TotalPaid - tp }

/-- postPersist embeds the tail of `OrderService.CreateOrder` after the
repository persist succeeded (lines 72-116): fetch and attach the user and
payment, run the enrichment loop, delete the cached order collections by
pattern, serialize the enriched order and cache it under its key with
ttl 0.  Every failure aborts with that step's error. -/
def postPersist (env : Env) (order : Order) :
    Except GoError Order × List Effect :=
  match env.getUserByID order.UserID with
  | .error e => (.error e, [.getUser order.UserID])
  | .ok user =>
    match env.getPaymentByID order.PaymentID with
    | .error e => (.error e, [.getUser order.UserID, .getPayment order.PaymentID])
    | .ok payment =>
      let order1 := { order with User := some user, Payment := some payment }
      let r := enrichLoop env order1.Products
      match r.1 with
      | .error e =>
          (.error e, .getUser order.UserID :: .getPayment order.PaymentID :: r.2)
      | .ok ops =>
        let order2 := { order1 with Products := ops }
        let tr := .getUser order.UserID :: .getPayment order.PaymentID :: r.2
        match env.cacheDeleteByPat "orders:*" with
        | .error e => (.error e, tr ++ [.cacheDeleteByPat "orders:*"])
        | .ok _ =>
          let cacheKey := generateCacheKey "order" (toString order2.ID)
          match env.serializeOrder order2 with
          | .error e => (.error e, tr ++ [.cacheDeleteByPat "orders:*"])
          | .ok blob =>
            match env.cacheSet cacheKey blob 0 with
            | .error e =>
                (.error e,
                 tr ++ [.cacheDeleteByPat "orders:*", .cacheSet cacheKey blob 0])
            | .ok _ =>
                (.ok order2,
                 tr ++ [.cacheDeleteByPat "orders:*", .cacheSet cacheKey blob 0])

/-- CreateOrder embeds `OrderService.CreateOrder` (order/service lines
44-117): validate and price the lines, fail with `insufficientPayment`
when `order.TotalPaid < totalPrice`, persist via the order repository, and
run the post-persistence enrichment and cache protocol.  The second
component is the trace of collaborator calls issued. -/
def CreateOrder (env : Env) (order : Order) :
    Except GoError Order × List Effect :=
  let r := createLoop env order.Products
  match r.1 with
  | .error e => (.error e, r.2)
  | .ok (ops, totalPrice) =>
    if order.TotalPaid < totalPrice then
      (.error .insufficientPayment, r.2)
    else
      let order1 := buildPersistOrder order ops totalPrice
      match env.createOrder order1 with
      | .error e => (.error e, r.2 ++ [.persistOrder order1])
      | .ok order2 =>
        let p := postPersist env order2
        (p.1, r.2 ++ [.persistOrder order1] ++ p.2)

/-- GetOrder embeds `OrderService.GetOrder` (order/service lines
120-178): on a cache hit, deserialize and return, propagating a
deserialization error unchanged; on a miss, fetch the order, attach user
and payment, run the enrichment loop, serialize and cache, and return the
enriched order. -/
def GetOrder (env : Env) (id : Nat) : Except GoError Order :=
  let cacheKey := generateCacheKey "order" (toString id)
  match env.cacheGet cacheKey with
  | .ok cachedOrder =>
    match env.deserializeOrder cachedOrder with
    | .error e => .error e
    | .ok order => .ok order
  | .error _ =>
    match env.getOrderByID id with
    | .error e => .error e
    | .ok order =>
      match env.getUserByID order.UserID with
      | .error e => .error e
      | .ok user =>
        match env.getPaymentByID order.PaymentID with
        | .error e => .error e
        | .ok payment =>
          let order1 := { order with User := some user, Payment := some payment }
          match (enrichLoop env order1.Products).1 with
          | .error e => .error e
          | .ok ops =>
            let order2 := { order1 with Products := ops }
            match env.serializeOrder order2 with
            | .error e => .error e
            | .ok blob =>
              match env.cacheSet cacheKey blob 0 with
              | .error e => .error e
              | .ok _ => .ok order2

/-- GetCategory embeds `CategoryService.GetCategory` (category/service
lines 60-92): on a cache hit, a deserialization failure is mapped to
`internal`; on a miss, a repository failure is returned unchanged when it
is `dataNotFound` and mapped to `internal` otherwise, and serialize /
cache-set failures are mapped to `internal`. -/
def GetCategory (env : Env) (id : Nat) : Except GoError Category :=
  let cacheKey := generateCacheKey "category" (toString id)
  match env.cacheGet cacheKey with
  | .ok cachedCategory =>
    match env.deserializeCategory cachedCategory with
    | .error _ => .error .internal
    | .ok category => .ok category
  | .error _ =>
    match env.getCategoryByID id with
    | .error e => if e = .dataNotFound then .error e else .error .internal
    | .ok category =>
      match env.serializeCategory category with
      | .error _ => .error .internal
      | .ok blob =>
        match env.cacheSet cacheKey blob 0 with
        | .error _ => .error .internal
        | .ok _ => .ok category

/-- pgGetProductByID embeds `ProductRepository.GetProductByID`
(product/adapter/storage/postgres/product.go lines 60-92) over a database
modelled as a partial map from id to row: a missing row (`pgx.ErrNoRows`)
is mapped to the common domain's `dataNotFound` error. -/
def pgGetProductByID (db : Nat → Option Product) (id : Nat) :
    Except GoError Product :=
  match db id with
  | none => .error .dataNotFound
  | some product => .ok product

/-- productListOffset embeds the row offset of
`ProductRepository.ListProducts` (product.go line 103):
`Offset((skip - 1) * limit)` in `uint64` arithmetic, so both the
subtraction and the multiplication wrap modulo `2 ^ 64`. -/
def productListOffset (skip limit : Nat) : Nat :=
  (skip + (2 ^ 64 - 1)) % 2 ^ 64 * limit % 2 ^ 64

/-- orderListOffset. Modelled from the spec: the postgres order
repository's `ListOrders` is not among the provided sources; the spec
states that order listings apply the plain offset `skip` that
`OrderService.ListOrders` passes through to the repository (order/service
line 197). -/
def orderListOffset (skip : Nat) : Nat :=
  skip % 2 ^ 64

/-- quantityBinding. Modelled from the go-playground validator semantics
of the binding tags on `orderProductRequest.Quantity`
(order handler lines 101-105): the tag is `required,number` on an `int64`
field, where `required` rejects exactly the zero value and `number`
imposes no range or sign restriction. -/
def quantityBinding (q : Int) : Bool :=
  q != 0

/-- lineProduct is the oracle answer for one requested line's product
fetch. -/
def lineProduct (env : Env) (op : OrderProduct) : Except GoError Product :=
  env.getProductByID op.ProductID

/-- lineFound is true when the line's product fetch succeeds. -/
def lineFound (env : Env) (op : OrderProduct) : Bool :=
  match lineProduct env op with
  | .ok _ => true
  | .error _ => false

/-- linePrice is the fetched product's price (0 when the fetch fails;
only used under a `lineFound` hypothesis). -/
def linePrice (env : Env) (op : OrderProduct) : Rat :=
  match lineProduct env op with
  | .ok p => p.Price
  | .error _ => 0

/-- lineStock is the fetched product's stock (0 when the fetch fails;
only used under a `lineFound` hypothesis). -/
def lineStock (env : Env) (op : OrderProduct) : Int :=
  match lineProduct env op with
  | .ok p => p.Stock
  | .error _ => 0

/-- lineOk is true when the line's product is found and the stock check
`product.Stock < quantity` does not fire. -/
def lineOk (env : Env) (op : OrderProduct) : Bool :=
  match lineProduct env op with
  | .ok p => !decide (p.Stock < op.Quantity)
  | .error _ => false

/-- setLineTotal rewrites one line the way the pricing loop does. -/
def setLineTotal (env : Env) (op : OrderProduct) : OrderProduct :=
  { op with TotalPrice := linePrice env op * (op.Quantity : Rat) }

/-- lineTotal is the line total the pricing loop computes for one line. -/
def lineTotal (env : Env) (op : OrderProduct) : Rat :=
  linePrice env op * (op.Quantity : Rat)

/-- linesTotal is the arithmetic sum of the computed line totals. -/
def linesTotal (env : Env) (ops : List OrderProduct) : Rat :=
  (ops.map (lineTotal env)).sum

/-- sampleCategory is a concrete category used to instantiate theorems. -/
def sampleCategory : Category := { ID := 1, Name := "Drinks" }

/-- sampleProduct is a concrete product: price 5000, stock 100 (the
spec's concrete scenario). -/
def sampleProduct : Product :=
  { ID := 1, CategoryID := 1, SKU := "sku-1", Name := "Coffee", Stock := 100,
    Price := 5000, Image := "", CreatedAt := 0, UpdatedAt := 0,
    Category := none }

/-- sampleUser is a concrete user. -/
def sampleUser : User :=
  { ID := 1, Name := "Jane", Email := "jane@pos.local", Role := "cashier" }

/-- samplePayment is a concrete payment method. -/
def samplePayment : Payment := { ID := 1, Name := "Cash", PayType := "cash" }

/-- sampleDB is a product table holding only sampleProduct under id 1. -/
def sampleDB : Nat → Option Product :=
  fun id => if id = 1 then some sampleProduct else none

/-- sampleEnv instantiates the collaborators: the postgres product lookup
over sampleDB, one category/user/payment each, an identity persist call,
a cold cache whose reads miss, and succeeding cache writes and
serialization. -/
def sampleEnv : Env :=
  { getProductByID := pgGetProductByID sampleDB
    getCategoryByID := fun id =>
      if id = 1 then .ok sampleCategory else .error .dataNotFound
    getUserByID := fun id =>
      if id = 1 then .ok sampleUser else .error .dataNotFound
    getPaymentByID := fun id =>
      if id = 1 then .ok samplePayment else .error .dataNotFound
    createOrder := fun o => .ok o
    getOrderByID := fun _ => .error .dataNotFound
    cacheGet := fun _ => .error .dataNotFound
    cacheSet := fun _ _ _ => .ok ()
    cacheDeleteByPat := fun _ => .ok ()
    serializeOrder := fun _ => .ok "serialized-order"
    deserializeOrder := fun _ => .error (.other "json unmarshal failure")
    serializeCategory := fun _ => .ok "serialized-category"
    deserializeCategory := fun _ => .error (.other "json unmarshal failure") }

/-- sampleLine requests quantity 2 of product 1. -/
def sampleLine : OrderProduct :=
  { ID := 0, OrderID := 0, ProductID := 1, Quantity := 2, TotalPrice := 0,
    Product := none, CreatedAt := 0, UpdatedAt := 0 }

/-- sampleDraft is the spec's concrete scenario: one line of quantity 2
at price 5000 with 10000 tendered; its client-supplied TotalPrice is
deliberate junk. -/
def sampleDraft : Order :=
  { ID := 0, UserID := 1, PaymentID := 1, CustomerName := "John Doe",
    TotalPrice := 999, TotalPaid := 10000, TotalReturn := 0,
    ReceiptCode := "", CreatedAt := 0, UpdatedAt := 0, User := none,
    Payment := none, Products := [sampleLine] }

/-- greedyLine requests quantity 200, exceeding the stock of 100. -/
def greedyLine : OrderProduct := { sampleLine with Quantity := 200 }

/-- stockDraft is sampleDraft with the over-stock line. -/
def stockDraft : Order := { sampleDraft with Products := [greedyLine] }

/-- paymentDraft tenders 1000 against one unit at price 5000. -/
def paymentDraft : Order :=
  { sampleDraft with
    TotalPaid := 1000
    Products := [{ sampleLine with Quantity := 1 }] }

/-- bothDraft violates the stock and payment conditions at once. -/
def bothDraft : Order := { stockDraft with TotalPaid := 1000 }

/-- failingCacheEnv is sampleEnv whose cache set call fails. -/
def failingCacheEnv : Env :=
  { sampleEnv with cacheSet := fun _ _ _ => .error (.other "cache set failed") }

/-- missingLine references product id 2, absent from sampleDB. -/
def missingLine : OrderProduct := { sampleLine with ProductID := 2 }

/-- missingDraft has one resolvable line and then one missing product. -/
def missingDraft : Order :=
  { sampleDraft with Products := [sampleLine, missingLine] }

/-- hitCacheEnv is sampleEnv whose cache reads hit with an undecodable
blob. -/
def hitCacheEnv : Env :=
  { sampleEnv with cacheGet := fun _ => .ok "blob" }

/-- negativeLine requests quantity -3 of product 1. -/
def negativeLine : OrderProduct := { sampleLine with Quantity := -3 }

/-- negativeDraft has a normal line followed by the negative-quantity
line. -/
def negativeDraft : Order :=
  { sampleDraft with Products := [sampleLine, negativeLine] }

/-- enrichedSampleLine is sampleLine as CreateOrder prices and enriches
it. -/
def enrichedSampleLine : OrderProduct :=
  { sampleLine with
    TotalPrice := 10000
    Product := some { sampleProduct with Category := some sampleCategory } }

/-- sampleResult is the order CreateOrder returns for sampleDraft under
sampleEnv: priced at 10000, zero return, fully enriched. -/
def sampleResult : Order :=
  { sampleDraft with
    TotalPrice := 10000
    TotalReturn := 0
    User := some sampleUser
    Payment := some samplePayment
    Products := [enrichedSampleLine] }

/-- createLoop on a list of lines that are all found and stock-sufficient
succeeds, rewrites every line total to price times quantity, returns the
arithmetic sum of the line totals, and issues exactly one product fetch
per line. -/
theorem createLoop_ok (env : Env) (ops : List OrderProduct)
    (h : ∀ op ∈ ops, lineOk env op = true) :
    createLoop env ops =
      (.ok (ops.map (setLineTotal env), linesTotal env ops),
       ops.map (fun l => Effect.getProduct l.ProductID)) := by
  induction ops with
  | nil => simp [createLoop, linesTotal]
  | cons op rest ih =>
    have hop := h op (by simp)
    have hrest : ∀ l ∈ rest, lineOk env l = true := by
      intro l hl
      exact h l (by simp [hl])
    cases hp : env.getProductByID op.ProductID with
    | error e => simp [lineOk, lineProduct, hp] at hop
    | ok p =>
      have hstock : ¬ p.Stock < op.Quantity := by
        simpa [lineOk, lineProduct, hp] using hop
      simp [createLoop, hp, hstock, ih hrest, linesTotal, setLineTotal,
        lineTotal, linePrice, lineProduct]

/-- createLoop aborts with the fetch error of the first line whose
product lookup fails, fetching only the preceding lines and that line. -/
theorem createLoop_fetch_error (env : Env) (pre : List OrderProduct)
    (op : OrderProduct) (post : List OrderProduct) (e : GoError)
    (hpre : ∀ l ∈ pre, lineOk env l = true)
    (hop : env.getProductByID op.ProductID = .error e) :
    createLoop env (pre ++ op :: post) =
      (.error e, (pre ++ [op]).map (fun l => Effect.getProduct l.ProductID)) := by
  induction pre with
  | nil => simp [createLoop, hop]
  | cons l rest ih =>
    have hl := hpre l (by simp)
    have hrest : ∀ x ∈ rest, lineOk env x = true := by
      intro x hx
      exact hpre x (by simp [hx])
    cases hp : env.getProductByID l.ProductID with
    | error e' => simp [lineOk, lineProduct, hp] at hl
    | ok p =>
      have hstock : ¬ p.Stock < l.Quantity := by
        simpa [lineOk, lineProduct, hp] using hl
      simp [createLoop, hp, hstock, ih hrest]

/-- createLoop aborts with `insufficientStock` at the first line whose
product is found but under-stocked, fetching only the preceding lines and
that line. -/
theorem createLoop_stock_error (env : Env) (pre : List OrderProduct)
    (op : OrderProduct) (post : List OrderProduct) (p : Product)
    (hpre : ∀ l ∈ pre, lineOk env l = true)
    (hop : env.getProductByID op.ProductID = .ok p)
    (hstock : p.Stock < op.Quantity) :
    createLoop env (pre ++ op :: post) =
      (.error .insufficientStock,
       (pre ++ [op]).map (fun l => Effect.getProduct l.ProductID)) := by
  induction pre with
  | nil => simp [createLoop, hop, hstock]
  | cons l rest ih =>
    have hl := hpre l (by simp)
    have hrest : ∀ x ∈ rest, lineOk env x = true := by
      intro x hx
      exact hpre x (by simp [hx])
    cases hp : env.getProductByID l.ProductID with
    | error e' => simp [lineOk, lineProduct, hp] at hl
    | ok q =>
      have hq : ¬ q.Stock < l.Quantity := by
        simpa [lineOk, lineProduct, hp] using hl
      simp [createLoop, hp, hq, ih hrest]

/-- postPersist only attaches nested objects: when it succeeds, the
monetary fields of its result are those of the order it was given. -/
theorem postPersist_money (env : Env) (o : Order) (r : Order)
    (h : (postPersist env o).1 = .ok r) :
    r.TotalPaid = o.TotalPaid ∧ r.TotalPrice = o.TotalPrice ∧
      r.TotalReturn = o.TotalReturn := by
  cases hu : env.getUserByID o.UserID with
  | error e => simp [postPersist, hu] at h
  | ok user =>
  cases hpay : env.getPaymentByID o.PaymentID with
  | error e => simp [postPersist, hu, hpay] at h
  | ok payment =>
  cases hen : (enrichLoop env o.Products).1 with
  | error e => simp [postPersist, hu, hpay, hen] at h
  | ok ops =>
  cases hdel : env.cacheDeleteByPat "orders:*" with
  | error e => simp [postPersist, hu, hpay, hen, hdel] at h
  | ok u =>
  cases hser : env.serializeOrder
      { o with User := some user, Payment := some payment, Products := ops } with
  | error e => simp [postPersist, hu, hpay, hen, hdel, hser] at h
  | ok blob =>
  cases hset : env.cacheSet (generateCacheKey "order" (toString o.ID)) blob 0 with
  | error e => simp [postPersist, hu, hpay, hen, hdel, hser, hset] at h
  | ok u' =>
    simp [postPersist, hu, hpay, hen, hdel, hser, hset] at h
    subst h
    exact ⟨rfl, rfl, rfl⟩

/-- Every effect in a createLoop trace is a product fetch. -/
theorem createLoop_effects (env : Env) (ops : List OrderProduct) :
    ∀ e ∈ (createLoop env ops).2, ∃ id, e = .getProduct id := by
  induction ops with
  | nil => simp [createLoop]
  | cons op rest ih =>
    cases hp : env.getProductByID op.ProductID with
    | error e' => simp [createLoop, hp]
    | ok p =>
      by_cases hs : p.Stock < op.Quantity
      · simp [createLoop, hp, hs]
      · intro e he
        simp [createLoop, hp, hs] at he
        rcases he with he | he
        · exact ⟨_, he⟩
        · exact ih e he

/-- Every effect in an enrichLoop trace is a product or category fetch. -/
theorem enrichLoop_effects (env : Env) (ops : List OrderProduct) :
    ∀ e ∈ (enrichLoop env ops).2,
      (∃ id, e = .getProduct id) ∨ (∃ id, e = .getCategory id) := by
  induction ops with
  | nil => simp [enrichLoop]
  | cons op rest ih =>
    cases hp : env.getProductByID op.ProductID with
    | error e' => simp [enrichLoop, hp]
    | ok p =>
      cases hc : env.getCategoryByID p.CategoryID with
      | error e' => simp [enrichLoop, hp, hc]
      | ok c =>
        intro e he
        simp [enrichLoop, hp, hc] at he
        rcases he with he | he | he
        · exact Or.inl ⟨_, he⟩
        · exact Or.inr ⟨_, he⟩
        · exact ih e he

/-- No effect in a postPersist trace writes a product. -/
theorem postPersist_effects (env : Env) (o : Order) :
    ∀ e ∈ (postPersist env o).2, e.writesProduct = false := by
  intro e he
  have henrich := enrichLoop_effects env o.Products
  cases hu : env.getUserByID o.UserID with
  | error e' =>
    simp [postPersist, hu] at he
    simp [he, Effect.writesProduct]
  | ok user =>
  cases hpay : env.getPaymentByID o.PaymentID with
  | error e' =>
    simp [postPersist, hu, hpay] at he
    rcases he with he | he <;> simp [he, Effect.writesProduct]
  | ok payment =>
  cases hen : (enrichLoop env o.Products).1 with
  | error e' =>
    simp [postPersist, hu, hpay, hen] at he
    rcases he with he | he | he
    · simp [he, Effect.writesProduct]
    · simp [he, Effect.writesProduct]
    · rcases henrich e he with ⟨id, rfl⟩ | ⟨id, rfl⟩ <;>
        simp [Effect.writesProduct]
  | ok ops =>
  cases hdel : env.cacheDeleteByPat "orders:*" with
  | error e' =>
    simp [postPersist, hu, hpay, hen, hdel] at he
    rcases he with he | he | he | he
    · simp [he, Effect.writesProduct]
    · simp [he, Effect.writesProduct]
    · rcases henrich e he with ⟨id, rfl⟩ | ⟨id, rfl⟩ <;>
        simp [Effect.writesProduct]
    · simp [he, Effect.writesProduct]
  | ok u =>
  cases hser : env.serializeOrder
      { o with User := some user, Payment := some payment, Products := ops } with
  | error e' =>
    simp [postPersist, hu, hpay, hen, hdel, hser] at he
    rcases he with he | he | he | he
    · simp [he, Effect.writesProduct]
    · simp [he, Effect.writesProduct]
    · rcases henrich e he with ⟨id, rfl⟩ | ⟨id, rfl⟩ <;>
        simp [Effect.writesProduct]
    · simp [he, Effect.writesProduct]
  | ok blob =>
  cases hset : env.cacheSet (generateCacheKey "order" (toString o.ID)) blob 0 with
  | error e' =>
    simp [postPersist, hu, hpay, hen, hdel, hser, hset] at he
    rcases he with he | he | he | he | he
    · simp [he, Effect.writesProduct]
    · simp [he, Effect.writesProduct]
    · rcases henrich e he with ⟨id, rfl⟩ | ⟨id, rfl⟩ <;>
        simp [Effect.writesProduct]
    · simp [he, Effect.writesProduct]
    · simp [he, Effect.writesProduct]
  | ok u' =>
    simp [postPersist, hu, hpay, hen, hdel, hser, hset] at he
    rcases he with he | he | he | he | he
    · simp [he, Effect.writesProduct]
    · simp [he, Effect.writesProduct]
    · rcases henrich e he with ⟨id, rfl⟩ | ⟨id, rfl⟩ <;>
        simp [Effect.writesProduct]
    · simp [he, Effect.writesProduct]
    · simp [he, Effect.writesProduct]

/-- Claim C2: for any draft containing a line whose quantity exceeds that
product's stock (the first such line, all earlier lines being found and
stock-sufficient), CreateOrder fails with `insufficientStock`, and its
whole effect trace is the product fetches of the earlier lines and the
violating line: no further line is processed, the order repository's
persist operation is never called, and no cache mutation happens. -/
theorem createOrder_insufficient_stock (env : Env) (order : Order)
    (pre : List OrderProduct) (op : OrderProduct) (post : List OrderProduct)
    (p : Product)
    (hsplit : order.Products = pre ++ op :: post)
    (hpre : ∀ l ∈ pre, lineOk env l = true)
    (hfetch : env.getProductByID op.ProductID = .ok p)
    (hstock : p.Stock < op.Quantity) :
    CreateOrder env order =
      (.error .insufficientStock,
       (pre ++ [op]).map (fun l => Effect.getProduct l.ProductID)) := by
  have h := createLoop_stock_error env pre op post p hpre hfetch hstock
  simp [CreateOrder, hsplit, h]

/-- Claim C4: for every order CreateOrder returns successfully,
`TotalReturn` equals `TotalPaid - TotalPrice` exactly and is never
negative.  The hypothesis on `env.createOrder` states that the order
repository's persist call returns the order it stored with the monetary
fields unchanged (the repository implementation is an external
collaborator here; it assigns ids and timestamps, not prices). -/
theorem createOrder_total_return (env : Env) (order : Order) (res : Order)
    (hrepo : ∀ o o', env.createOrder o = .ok o' →
      o'.TotalPaid = o.TotalPaid ∧ o'.TotalPrice = o.TotalPrice ∧
        o'.TotalReturn = o.TotalReturn)
    (h : (CreateOrder env order).1 = .ok res) :
    res.TotalReturn = res.TotalPaid - res.TotalPrice ∧ 0 ≤ res.TotalReturn := by
  cases hc : (createLoop env order.Products).1 with
  | error e => simp [CreateOrder, hc] at h
  | ok vt =>
    obtain ⟨ops, tp⟩ := vt
    by_cases hpaid : order.TotalPaid < tp
    · simp [CreateOrder, hc, hpaid] at h
    · cases hco : env.createOrder (buildPersistOrder order ops tp) with
      | error e => simp [CreateOrder, hc, hpaid, hco] at h
      | ok o2 =>
        have h2 : (postPersist env o2).1 = .ok res := by
          simpa [CreateOrder, hc, hpaid, hco] using h
        obtain ⟨hp1, hp2, hp3⟩ := postPersist_money env o2 res h2
        obtain ⟨hq1, hq2, hq3⟩ := hrepo _ _ hco
        have hb1 : (buildPersistOrder order ops tp).TotalPaid = order.TotalPaid :=
          rfl
        have hb2 : (buildPersistOrder order ops tp).TotalPrice = tp := rfl
        have hb3 : (buildPersistOrder order ops tp).TotalReturn =
            order.TotalPaid - tp := rfl
        constructor
        · rw [hp3, hp1, hp2, hq3, hq1, hq2, hb1, hb2, hb3]
        · rw [hp3, hq3, hb3]
          exact sub_nonneg.mpr (not_lt.mp hpaid)

/-- Claim C5: when the persist call of CreateOrder succeeds but any
subsequent step fails (user/payment/product/category enrichment lookup,
prefix invalidation of the orders collection, serialization, or the cache
set — i.e. `postPersist` fails), the whole operation returns that error
to the caller even though the persist call was issued and succeeded: the
`persistOrder` effect is in the trace. -/
theorem createOrder_error_after_persist (env : Env) (order : Order)
    (ops : List OrderProduct) (tp : Rat) (o2 : Order) (e : GoError)
    (hloop : (createLoop env order.Products).1 = .ok (ops, tp))
    (hpaid : ¬ order.TotalPaid < tp)
    (hpersist : env.createOrder (buildPersistOrder order ops tp) = .ok o2)
    (hfail : (postPersist env o2).1 = .error e) :
    (CreateOrder env order).1 = .error e ∧
      Effect.persistOrder (buildPersistOrder order ops tp) ∈
        (CreateOrder env order).2 := by
  constructor
  · simp [CreateOrder, hloop, hpaid, hpersist, hfail]
  · simp [CreateOrder, hloop, hpaid, hpersist]

/-- Claim C6: a missing product id makes CreateOrder fail with exactly the
`dataNotFound` error that the postgres product repository produces for
`pgx.ErrNoRows` — the error value is propagated unchanged, not re-wrapped
as `internal` — and the trace contains only product fetches: nothing is
persisted. -/
theorem createOrder_missing_product (db : Nat → Option Product) (env : Env)
    (order : Order) (pre : List OrderProduct) (op : OrderProduct)
    (post : List OrderProduct)
    (henv : env.getProductByID = pgGetProductByID db)
    (hsplit : order.Products = pre ++ op :: post)
    (hpre : ∀ l ∈ pre, lineOk env l = true)
    (hmissing : db op.ProductID = none) :
    CreateOrder env order =
      (.error .dataNotFound,
       (pre ++ [op]).map (fun l => Effect.getProduct l.ProductID)) ∧
    (GoError.dataNotFound ≠ GoError.internal) := by
  have hop : env.getProductByID op.ProductID = .error .dataNotFound := by
    rw [henv, pgGetProductByID, hmissing]
  have h := createLoop_fetch_error env pre op post .dataNotFound hpre hop
  constructor
  · simp [CreateOrder, hsplit, h]
  · intro hcontra
    exact GoError.noConfusion hcontra

/-- Claim C7: CreateOrder never mutates a product: no effect in its trace
is a product-mutating repository operation (`CreateProduct`,
`UpdateProduct`, `DeleteProduct`), whether the call succeeds or fails —
in particular stock is never decremented. -/
theorem createOrder_no_product_write (env : Env) (order : Order) :
    ∀ e ∈ (CreateOrder env order).2, e.writesProduct = false := by
  intro e he
  have hloop := createLoop_effects env order.Products
  cases hc : (createLoop env order.Products).1 with
  | error e' =>
    simp [CreateOrder, hc] at he
    obtain ⟨id, rfl⟩ := hloop e he
    rfl
  | ok vt =>
    obtain ⟨ops, tp⟩ := vt
    by_cases hpaid : order.TotalPaid < tp
    · simp [CreateOrder, hc, hpaid] at he
      obtain ⟨id, rfl⟩ := hloop e he
      rfl
    · cases hco : env.createOrder (buildPersistOrder order ops tp) with
      | error e' =>
        simp [CreateOrder, hc, hpaid, hco] at he
        rcases he with he | he
        · obtain ⟨id, rfl⟩ := hloop e he
          rfl
        · simp [he, Effect.writesProduct]
      | ok o2 =>
        simp [CreateOrder, hc, hpaid, hco] at he
        rcases he with he | he | he
        · obtain ⟨id, rfl⟩ := hloop e he
          rfl
        · simp [he, Effect.writesProduct]
        · exact postPersist_effects env o2 e he

/-- Claim C1: for a draft whose products are all found and all
stock-sufficient, the pricing loop sets each line total to the product's
price times the requested quantity and computes the arithmetic sum of
those line totals; the client-supplied `TotalPrice` of the draft is
irrelevant to the whole call; and when payment suffices, the order handed
to the persist call carries exactly that sum as its `TotalPrice`. -/
theorem createOrder_pricing (env : Env) (order : Order)
    (h : ∀ op ∈ order.Products, lineOk env op = true) :
    (createLoop env order.Products).1 =
      .ok (order.Products.map (setLineTotal env),
           linesTotal env order.Products) ∧
    (∀ op ∈ order.Products,
      (setLineTotal env op).TotalPrice = linePrice env op * (op.Quantity : Rat)) ∧
    (∀ c : Rat, CreateOrder env { order with TotalPrice := c } =
      CreateOrder env order) ∧
    (¬ order.TotalPaid < linesTotal env order.Products →
      Effect.persistOrder
          (buildPersistOrder order (order.Products.map (setLineTotal env))
            (linesTotal env order.Products)) ∈ (CreateOrder env order).2 ∧
      (buildPersistOrder order (order.Products.map (setLineTotal env))
          (linesTotal env order.Products)).TotalPrice =
        linesTotal env order.Products) := by
  have hc : (createLoop env order.Products).1 =
      .ok (order.Products.map (setLineTotal env),
           linesTotal env order.Products) := by
    rw [createLoop_ok env order.Products h]
  refine ⟨hc, fun op _ => rfl, fun c => rfl, fun hpaid => ⟨?_, rfl⟩⟩
  cases hco : env.createOrder (buildPersistOrder order
      (order.Products.map (setLineTotal env)) (linesTotal env order.Products)) with
  | error e => simp [CreateOrder, hc, hpaid, hco]
  | ok o2 => simp [CreateOrder, hc, hpaid, hco]

/-- Claim C3: when every product is found and stock-sufficient but the
tendered amount is below the computed total, CreateOrder fails with
`insufficientPayment` without persisting anything; and when a draft
violates both the stock and the payment conditions, the result is
`insufficientStock`, never `insufficientPayment` — the payment check runs
only after all per-line stock checks pass. -/
theorem createOrder_payment_check :
    (∀ env order, (∀ op ∈ order.Products, lineOk env op = true) →
       order.TotalPaid < linesTotal env order.Products →
       CreateOrder env order =
         (.error .insufficientPayment,
          order.Products.map (fun l => Effect.getProduct l.ProductID))) ∧
    (∀ env order pre op post p, order.Products = pre ++ op :: post →
       (∀ l ∈ pre, lineOk env l = true) →
       env.getProductByID op.ProductID = .ok p →
       p.Stock < op.Quantity →
       order.TotalPaid < linesTotal env order.Products →
       (CreateOrder env order).1 = .error .insufficientStock ∧
       (CreateOrder env order).1 ≠ .error .insufficientPayment) := by
  constructor
  · intro env order h hpaid
    have hfull := createLoop_ok env order.Products h
    simp [CreateOrder, hfull, hpaid]
  · intro env order pre op post p hsplit hpre hfetch hstock hpaid
    have h := createLoop_stock_error env pre op post p hpre hfetch hstock
    constructor
    · simp [CreateOrder, hsplit, h]
    · simp [CreateOrder, hsplit, h]

/-- Claim C8 (amended): a deserialization failure on a cache hit is never
masked by falling back to storage, but the two services do not classify
it identically: `GetCategory` maps it to the `internal` error while
`GetOrder` propagates the raw deserialization error unchanged. -/
theorem getOrder_deserialize_error (env : Env) (id : Nat)
    (blob blobc : String) (e ec : GoError)
    (hhit : env.cacheGet (generateCacheKey "order" (toString id)) = .ok blob)
    (hde : env.deserializeOrder blob = .error e)
    (hhitc : env.cacheGet (generateCacheKey "category" (toString id)) = .ok blobc)
    (hdec : env.deserializeCategory blobc = .error ec) :
    GetOrder env id = .error e ∧ GetCategory env id = .error .internal := by
  constructor
  · simp [GetOrder, hhit, hde]
  · simp [GetCategory, hhitc, hdec]

/-- Claim C9: the product listing computes its storage row offset as
`(skip - 1) * limit` while the order listing uses the plain `skip` it was
given — two different offset conventions for the same `(skip, limit)`
arguments. -/
theorem listing_offsets (skip limit : Nat)
    (h1 : 1 ≤ skip) (h2 : skip < 2 ^ 64)
    (h3 : (skip - 1) * limit < 2 ^ 64) :
    productListOffset skip limit = (skip - 1) * limit ∧
    orderListOffset skip = skip ∧
    ((skip - 1) * limit ≠ skip →
      productListOffset skip limit ≠ orderListOffset skip) := by
  have hp : (2 : Nat) ^ 64 = 18446744073709551616 := by norm_num
  have hmod : (skip + (2 ^ 64 - 1)) % 2 ^ 64 = skip - 1 := by
    rw [hp]
    rw [hp] at h2
    omega
  have h4 : productListOffset skip limit = (skip - 1) * limit := by
    rw [productListOffset, hmod, Nat.mod_eq_of_lt h3]
  have h5 : orderListOffset skip = skip := Nat.mod_eq_of_lt h2
  refine ⟨h4, h5, fun hne => ?_⟩
  rw [h4, h5]
  exact hne

/-- Claim C10: CreateOrder performs no positivity check on quantities: a
negative-quantity line passes the stock check whenever the product's
stock is non-negative, its computed line total `price * quantity` is
negative, and it strictly reduces the computed order total compared to
the same draft without that line; the HTTP binding (`required,number`)
does not reject negative quantities either. -/
theorem createOrder_negative_quantity (env : Env) (order : Order)
    (pre post : List OrderProduct) (op : OrderProduct)
    (hsplit : order.Products = pre ++ op :: post)
    (hok : ∀ l ∈ pre ++ post, lineOk env l = true)
    (hfound : lineFound env op = true)
    (hstock : 0 ≤ lineStock env op)
    (hq : op.Quantity < 0)
    (hprice : 0 < linePrice env op) :
    lineOk env op = true ∧
    (createLoop env order.Products).1 =
      .ok (order.Products.map (setLineTotal env),
           linesTotal env order.Products) ∧
    lineTotal env op < 0 ∧
    linesTotal env order.Products < linesTotal env (pre ++ post) ∧
    quantityBinding op.Quantity = true := by
  cases hfp : env.getProductByID op.ProductID with
  | error e => simp [lineFound, lineProduct, hfp] at hfound
  | ok p =>
    have hst : (0 : Int) ≤ p.Stock := by
      simpa [lineStock, lineProduct, hfp] using hstock
    have hopok : lineOk env op = true := by
      simp [lineOk, lineProduct, hfp]
      omega
    have hall : ∀ l ∈ order.Products, lineOk env l = true := by
      intro l hl
      rw [hsplit] at hl
      rcases List.mem_append.mp hl with hl | hl
      · exact hok l (List.mem_append.mpr (Or.inl hl))
      · rcases List.mem_cons.mp hl with rfl | hl
        · exact hopok
        · exact hok l (List.mem_append.mpr (Or.inr hl))
    have hcast : ((op.Quantity : Int) : Rat) < 0 := by
      exact_mod_cast hq
    have hneg : lineTotal env op < 0 :=
      mul_neg_of_pos_of_neg hprice hcast
    have hc : (createLoop env order.Products).1 =
        .ok (order.Products.map (setLineTotal env),
             linesTotal env order.Products) := by
      rw [createLoop_ok env order.Products hall]
    refine ⟨hopok, hc, hneg, ?_, ?_⟩
    · have hsum1 : linesTotal env order.Products =
          linesTotal env pre + (lineTotal env op + linesTotal env post) := by
        rw [hsplit]
        simp [linesTotal]
      have hsum2 : linesTotal env (pre ++ post) =
          linesTotal env pre + linesTotal env post := by
        simp [linesTotal]
      rw [hsum1, hsum2]
      linarith
    · simp [quantityBinding]
      omega

/-- Witness for claim C1 at the spec's concrete scenario: quantity 2 at
price 5000 gives order total 10000, which reaches the persist call. -/
theorem createOrder_pricing_witness :
    (createLoop sampleEnv sampleDraft.Products).1 =
      .ok (sampleDraft.Products.map (setLineTotal sampleEnv),
           linesTotal sampleEnv sampleDraft.Products) ∧
    Effect.persistOrder
        (buildPersistOrder sampleDraft
          (sampleDraft.Products.map (setLineTotal sampleEnv))
          (linesTotal sampleEnv sampleDraft.Products)) ∈
      (CreateOrder sampleEnv sampleDraft).2 :=
  ⟨(createOrder_pricing sampleEnv sampleDraft (by decide)).1,
   ((createOrder_pricing sampleEnv sampleDraft (by decide)).2.2.2
     (by with_unfolding_all decide)).1⟩

/-- Witness for claim C2 at the spec's concrete scenario: quantity 200
against stock 100 fails with insufficientStock after a single product
fetch and nothing else. -/
theorem createOrder_insufficient_stock_witness :
    CreateOrder sampleEnv stockDraft =
      (.error .insufficientStock, [Effect.getProduct 1]) := by
  have h := createOrder_insufficient_stock sampleEnv stockDraft [] greedyLine []
    sampleProduct rfl (by decide) (by decide) (by decide)
  simpa using h

/-- Witness for claim C3: tendering 1000 against a 5000 total fails with
insufficientPayment, and a draft violating both conditions fails with
insufficientStock. -/
theorem createOrder_payment_check_witness :
    CreateOrder sampleEnv paymentDraft =
      (.error .insufficientPayment, [Effect.getProduct 1]) ∧
    (CreateOrder sampleEnv bothDraft).1 = .error .insufficientStock := by
  constructor
  · have h := createOrder_payment_check.1 sampleEnv paymentDraft
      (by decide) (by with_unfolding_all decide)
    simpa using h
  · exact (createOrder_payment_check.2 sampleEnv bothDraft [] greedyLine []
      sampleProduct rfl (by decide) (by decide) (by decide)
      (by with_unfolding_all decide)).1

/-- Witness for claim C4: the created sample order has total 10000, paid
10000, return 0 = paid - total. -/
theorem createOrder_total_return_witness :
    (CreateOrder sampleEnv sampleDraft).1 = .ok sampleResult ∧
    (sampleResult.TotalReturn =
        sampleResult.TotalPaid - sampleResult.TotalPrice ∧
      0 ≤ sampleResult.TotalReturn) := by
  have hres : (CreateOrder sampleEnv sampleDraft).1 = .ok sampleResult := by
    norm_num [CreateOrder, createLoop, postPersist, enrichLoop,
      buildPersistOrder, sampleEnv, sampleDB, pgGetProductByID, sampleDraft,
      sampleLine, sampleProduct, sampleCategory, sampleUser, samplePayment,
      generateCacheKey, sampleResult, enrichedSampleLine]
  exact ⟨hres,
    createOrder_total_return sampleEnv sampleDraft sampleResult
      (fun o o' h => by
        have h2 : o = o' := Except.ok.inj h
        subst h2
        exact ⟨rfl, rfl, rfl⟩)
      hres⟩

/-- Witness for claim C5: with a failing cache set, CreateOrder returns
that cache error although the persist call was issued and succeeded. -/
theorem createOrder_error_after_persist_witness :
    (CreateOrder failingCacheEnv sampleDraft).1 =
      .error (.other "cache set failed") ∧
    Effect.persistOrder
        (buildPersistOrder sampleDraft
          [{ sampleLine with TotalPrice := 10000 }] 10000) ∈
      (CreateOrder failingCacheEnv sampleDraft).2 := by
  have hloop : (createLoop failingCacheEnv sampleDraft.Products).1 =
      .ok ([{ sampleLine with TotalPrice := 10000 }], 10000) := by
    norm_num [createLoop, failingCacheEnv, sampleEnv, sampleDB,
      pgGetProductByID, sampleDraft, sampleLine, sampleProduct]
  have hpaid : ¬ sampleDraft.TotalPaid < (10000 : Rat) := by
    norm_num [sampleDraft]
  have hfail : (postPersist failingCacheEnv
      (buildPersistOrder sampleDraft
        [{ sampleLine with TotalPrice := 10000 }] 10000)).1 =
      .error (.other "cache set failed") := by
    norm_num [postPersist, enrichLoop, buildPersistOrder, failingCacheEnv,
      sampleEnv, sampleDB, pgGetProductByID, sampleDraft, sampleLine,
      sampleProduct, generateCacheKey]
  exact createOrder_error_after_persist failingCacheEnv sampleDraft
    [{ sampleLine with TotalPrice := 10000 }] 10000
    (buildPersistOrder sampleDraft
      [{ sampleLine with TotalPrice := 10000 }] 10000)
    (.other "cache set failed") hloop hpaid rfl hfail

/-- Witness for claim C6: a draft whose second line references the absent
product id 2 fails with dataNotFound after fetching products 1 and 2,
with no persist or cache effect. -/
theorem createOrder_missing_product_witness :
    CreateOrder sampleEnv missingDraft =
      (.error .dataNotFound, [Effect.getProduct 1, Effect.getProduct 2]) := by
  have h := (createOrder_missing_product sampleDB sampleEnv missingDraft
    [sampleLine] missingLine [] rfl rfl (by decide) rfl).1
  simpa using h

/-- Witness for claim C7: the successful sample run's trace contains the
product fetch, which is not a product write. -/
theorem createOrder_no_product_write_witness :
    Effect.getProduct 1 ∈ (CreateOrder sampleEnv sampleDraft).2 ∧
    Effect.writesProduct (Effect.getProduct 1) = false :=
  ⟨by with_unfolding_all decide,
   createOrder_no_product_write sampleEnv sampleDraft
     (Effect.getProduct 1) (by with_unfolding_all decide)⟩

/-- Witness for the amended claim C8: on a cache hit with an undecodable
blob, GetOrder returns the raw deserialization error and GetCategory
returns internal. -/
theorem getOrder_deserialize_error_witness :
    GetOrder hitCacheEnv 7 = .error (.other "json unmarshal failure") ∧
    GetCategory hitCacheEnv 7 = .error .internal :=
  getOrder_deserialize_error hitCacheEnv 7 "blob" "blob"
    (.other "json unmarshal failure") (.other "json unmarshal failure")
    rfl rfl rfl rfl

/-- Counterexample to claim C8 as stated: on a cache hit whose blob fails
to deserialize, GetOrder does not return the internal error — it returns
the raw deserialization error — while GetCategory maps the same situation
to internal, so the two read paths are not identical. -/
theorem getOrder_deserialize_counterexample :
    GetOrder hitCacheEnv 7 ≠ .error .internal ∧
    GetOrder hitCacheEnv 7 = .error (.other "json unmarshal failure") ∧
    GetCategory hitCacheEnv 7 = .error .internal := by
  refine ⟨?_, rfl, rfl⟩
  decide

/-- Witness for claim C9: at skip 2 and limit 10 the product listing
skips 10 rows while the order listing skips 2. -/
theorem listing_offsets_witness :
    productListOffset 2 10 = 10 ∧ orderListOffset 2 = 2 ∧
    productListOffset 2 10 ≠ orderListOffset 2 := by
  have h := listing_offsets 2 10 (by norm_num) (by norm_num) (by norm_num)
  exact ⟨by simpa using h.1, h.2.1, by simpa using h.2.2 (by norm_num)⟩

/-- Witness for claim C10: a line of quantity -3 at price 5000 passes the
stock check against stock 100, contributes -15000, and drags the order
total from 10000 down to -5000; the binding accepts -3. -/
theorem createOrder_negative_quantity_witness :
    lineOk sampleEnv negativeLine = true ∧
    lineTotal sampleEnv negativeLine < 0 ∧
    linesTotal sampleEnv negativeDraft.Products <
      linesTotal sampleEnv [sampleLine] ∧
    quantityBinding negativeLine.Quantity = true := by
  have h := createOrder_negative_quantity sampleEnv negativeDraft [sampleLine]
    [] negativeLine rfl (by decide) (by decide) (by decide) (by decide)
    (by decide)
  exact ⟨h.1, h.2.2.1, by simpa using h.2.2.2.1, h.2.2.2.2⟩

end GoRestaurant
